import Mathlib

/-!
Shallow embedding of the kbfsfuse File node layer (src/kbfsfuse/file.go) of
the IIIHIHIKIII/client repository, with the collaborating Dir-side routines
that live outside src/ modelled from the specification.

Conventions of the embedding:
* Go byte slices become `List Nat`; `uint64` sizes become `Nat`; `int64`
  offsets and times become `Int`; the backend block reference inside a
  `PathNode` is an abstract token modelled as `Nat`.
* A Go method that can return an error becomes a function into `Except e a`.
* A Go statement that can panic (index out of range) makes the whole
  function return `Option`, with `none` standing for the panic.
* The mutation of the receiver through a pointer becomes explicit state
  passing: an operation that can update the `File` returns the new `File`.
* The backend (libkbfs KBFSOps) is an abstract record of pure functions;
  a mutating backend call that yields a new canonical path is a function
  into `Except e Path`.
-/

namespace KbfsFuse

/-- One path segment (libkbfs.PathNode): the segment's current name plus the
backend's version/location token for it, modelled abstractly as a `Nat`. -/
structure PathNode where
  name : String
  blockRef : Nat

/-- A root-to-node path (libkbfs.Path): the identifier of the top-level
folder plus the ordered list of path nodes, root first. -/
structure Path where
  topDir : Nat
  path : List PathNode

/-- A File node (file.go): its own remembered PathNode plus the chain of its
ancestors' remembered PathNodes, nearest parent first and the root Dir last.
The chain stands for the parent back-references walked by getPathLocked and
updatePathLocked. -/
structure File where
  topDir : Nat
  parentChain : List PathNode
  pathNode : PathNode

/-- Modelled from the spec: Dir.getPathLocked (dir.go is not under src/).
Section 4.2: the parent chain yields the root-first list of its PathNodes.
file.go appends the file's own PathNode to the parent's path. -/
def File.getPathLocked (f : File) : Path :=
  { topDir := f.topDir, path := f.parentChain.reverse ++ [f.pathNode] }

/-- Modelled from the spec: Dir.updatePathLocked (dir.go is not under src/).
Section 4.3: take a full Path whose last element is this node's new identity;
if the last element's name does not match the node's remembered name, drop
the update silently; otherwise store the new PathNode, strip the last
element, and recurse into the parent with the shortened Path, terminating at
the root. Accessing the last element of an empty path is the out-of-range
panic, modelled as `none`. The chain is nearest node first, root last. -/
def updatePathChainLocked : List PathNode → Path → Option (List PathNode)
  | [], _ => some []
  | node :: rest, p =>
    match p.path.getLast? with
    | none => none
    | some pNode =>
      if node.name ≠ pNode.name then some (node :: rest)
      else if rest.isEmpty then some [pNode]
      else (updatePathChainLocked rest { topDir := p.topDir, path := p.path.dropLast }).map
        (fun c => pNode :: c)

/-- file.go File.updatePathLocked: read the trailing element of `p` (a panic
when `p` is empty, modelled as `none`); if its name differs from the file's
remembered name, return with no change; otherwise store it, strip it, and
recurse into the parent chain with the shortened path. -/
def File.updatePathLocked (f : File) (p : Path) : Option File :=
  match p.path.getLast? with
  | none => none
  | some pNode =>
    if f.pathNode.name ≠ pNode.name then some f
    else (updatePathChainLocked f.parentChain
            { topDir := p.topDir, path := p.path.dropLast }).map
      (fun c => { topDir := f.topDir, parentChain := c, pathNode := pNode })

/-- C1: for every File node and Path passed to updatePathLocked, if the name
of the last element of the path differs from the node's remembered PathNode
name the update is dropped silently (the node and its ancestors unchanged,
no parent update); otherwise the node's PathNode is replaced by the last
element, the last element is stripped, and propagation recurses into the
parent chain with the shortened path. -/
theorem updatePathLocked_drop_or_store (f : File) (p : Path) (pNode : PathNode)
    (h : p.path.getLast? = some pNode) :
    (f.pathNode.name ≠ pNode.name → f.updatePathLocked p = some f) ∧
    (f.pathNode.name = pNode.name →
      f.updatePathLocked p =
        (updatePathChainLocked f.parentChain
            { topDir := p.topDir, path := p.path.dropLast }).map
          (fun c => { topDir := f.topDir, parentChain := c, pathNode := pNode })) := by
  constructor <;> intro hn <;> simp [File.updatePathLocked, h, hn]

/-- Witness for C1 at a concrete node and path, both branches. -/
theorem updatePathLocked_drop_or_store_witness :
    ((File.mk 0 [PathNode.mk "r" 0] (PathNode.mk "a" 1)).updatePathLocked
        (Path.mk 0 [PathNode.mk "r" 5, PathNode.mk "b" 6]) =
      some (File.mk 0 [PathNode.mk "r" 0] (PathNode.mk "a" 1))) ∧
    ((File.mk 0 [PathNode.mk "r" 0] (PathNode.mk "a" 1)).updatePathLocked
        (Path.mk 0 [PathNode.mk "r" 5, PathNode.mk "a" 6]) =
      some (File.mk 0 [PathNode.mk "r" 5] (PathNode.mk "a" 6))) := by
  constructor
  · exact (updatePathLocked_drop_or_store
      (File.mk 0 [PathNode.mk "r" 0] (PathNode.mk "a" 1))
      (Path.mk 0 [PathNode.mk "r" 5, PathNode.mk "b" 6])
      (PathNode.mk "b" 6) (by simp)).1 (by simp)
  · have h := (updatePathLocked_drop_or_store
      (File.mk 0 [PathNode.mk "r" 0] (PathNode.mk "a" 1))
      (Path.mk 0 [PathNode.mk "r" 5, PathNode.mk "a" 6])
      (PathNode.mk "a" 6) (by simp)).2 (by simp)
    rw [h]
    simp [updatePathChainLocked]

/-- When the path has exactly as many elements as the chain has nodes, the
chain update never reaches the out-of-range branch at any level. -/
theorem updatePathChainLocked_length_some (chain : List PathNode) (p : Path)
    (h : p.path.length = chain.length) : updatePathChainLocked chain p ≠ none := by
  induction chain generalizing p with
  | nil => simp [updatePathChainLocked]
  | cons node rest ih =>
    have hne : p.path ≠ [] := by
      intro hc
      rw [hc] at h
      simp at h
    obtain ⟨pNode, hlast⟩ := Option.isSome_iff_exists.mp (List.getLast?_isSome.mpr hne)
    rw [updatePathChainLocked, hlast]
    by_cases hn : node.name ≠ pNode.name
    · simp [hn]
    · simp only [hn, if_false]
      by_cases hr : rest.isEmpty
      · simp [hr]
      · have hlen : ({ topDir := p.topDir, path := p.path.dropLast } : Path).path.length =
            rest.length := by
          simp [List.length_dropLast, h]
        have := ih { topDir := p.topDir, path := p.path.dropLast } hlen
        simp only [hr, if_false]
        intro hc
        exact this (Option.map_eq_none.mp hc)

/-- C9: updatePathLocked is only defined for a non-empty Path: with at least
one element its read of the trailing element and its strip of that element
are in bounds, with an empty Path the out-of-range branch is reached
(modelled as `none`, the panic), and under the call-site precondition that
the path is exactly as deep as the node (one element per chain node plus the
file's own) no out-of-range branch is reachable at any level. -/
theorem updatePathLocked_safety (f : File) (p : Path) (hp : p.path ≠ []) :
    p.path.getLast?.isSome = true ∧
    p.path.dropLast.length < p.path.length ∧
    f.updatePathLocked { topDir := p.topDir, path := [] } = none ∧
    (p.path.length = f.parentChain.length + 1 → f.updatePathLocked p ≠ none) := by
  refine ⟨List.getLast?_isSome.mpr hp, ?_, ?_, ?_⟩
  · have : 0 < p.path.length := List.length_pos.mpr hp
    rw [List.length_dropLast]
    omega
  · simp [File.updatePathLocked]
  · intro hlen
    obtain ⟨pNode, hlast⟩ := Option.isSome_iff_exists.mp (List.getLast?_isSome.mpr hp)
    rw [File.updatePathLocked, hlast]
    by_cases hn : f.pathNode.name ≠ pNode.name
    · simp [hn]
    · have hchain : ({ topDir := p.topDir, path := p.path.dropLast } : Path).path.length =
          f.parentChain.length := by
        simp [List.length_dropLast, hlen]
      have := updatePathChainLocked_length_some f.parentChain
        { topDir := p.topDir, path := p.path.dropLast } hchain
      simp only [hn, if_false]
      intro hc
      exact this (Option.map_eq_none.mp hc)

/-- Witness for C9 at a concrete node and a depth-matching two-element path. -/
theorem updatePathLocked_safety_witness :
    ([PathNode.mk "r" 5, PathNode.mk "a" 6].getLast?.isSome = true ∧
     [PathNode.mk "r" 5, PathNode.mk "a" 6].dropLast.length <
       [PathNode.mk "r" 5, PathNode.mk "a" 6].length ∧
     (File.mk 0 [PathNode.mk "r" 0] (PathNode.mk "a" 1)).updatePathLocked
       { topDir := 0, path := [] } = none ∧
     ([PathNode.mk "r" 5, PathNode.mk "a" 6].length =
         [PathNode.mk "r" 0].length + 1 →
       (File.mk 0 [PathNode.mk "r" 0] (PathNode.mk "a" 1)).updatePathLocked
         (Path.mk 0 [PathNode.mk "r" 5, PathNode.mk "a" 6]) ≠ none)) :=
  updatePathLocked_safety (File.mk 0 [PathNode.mk "r" 0] (PathNode.mk "a" 1))
    (Path.mk 0 [PathNode.mk "r" 5, PathNode.mk "a" 6]) (by simp)

/-- libkbfs entry type (libkbfs.File, libkbfs.Exec, libkbfs.Dir, libkbfs.Sym). -/
inductive EntryType where
  | file
  | exec
  | dir
  | sym
  deriving DecidableEq

/-- libkbfs.DirEntry as used by file.go: the entry type plus the size and the
timestamps the stat result carries. -/
structure DirEntry where
  entryType : EntryType
  size : Nat
  mtime : Int
  ctime : Int

/-- Result of a backend read into a caller buffer: the byte count reported,
the buffer contents after the call (length is the buffer capacity), and the
error, if any. In Go both the count and the error come back together. -/
structure ReadResult where
  count : Nat
  buffer : List Nat
  err : Option Nat

/-- The backend surface consumed by file.go (libkbfs KBFSOps), as an abstract
record of pure functions; backend errors are abstract codes (`Nat`).
Mutating calls that shift the canonical path return the new Path. -/
structure KBFSOps where
  stat : Path → Except Nat DirEntry
  read : Path → Nat → Int → ReadResult
  write : Path → List Nat → Int → Except Nat Unit
  truncate : Path → Nat → Except Nat Unit
  setEx : Path → Bool → Except Nat Path
  setMtime : Path → Int → Except Nat Path
  sync : Path → Except Nat Path

/-- Modelled from the spec: statPath (defined outside src/): Backend.Stat on
the reconstructed Path, yielding the descriptor or the backend error. -/
def statPath (ops : KBFSOps) (p : Path) : Except Nat DirEntry :=
  ops.stat p

/-- The fuse.Attr fields file.go touches: permission bits, size, timestamps. -/
structure FuseAttr where
  mode : Nat := 0
  size : Nat := 0
  mtime : Int := 0
  ctime : Int := 0

/-- Modelled from the spec: fillAttr (defined outside src/): size and
timestamps are copied verbatim from the stat result into the attribute
record. -/
def fillAttr (de : DirEntry) (a : FuseAttr) : FuseAttr :=
  { a with size := de.size, mtime := de.mtime, ctime := de.ctime }

/-- file.go File.Attr: stat the reconstructed path; on success fill size and
times, set mode 0644, and add 0111 exactly when the entry type is Exec. -/
def File.attr (ops : KBFSOps) (f : File) : Except Nat FuseAttr :=
  match statPath ops f.getPathLocked with
  | Except.error e => Except.error e
  | Except.ok de =>
    let a := fillAttr de {}
    let a := { a with mode := 0o644 }
    let a := if de.entryType = EntryType.exec then { a with mode := a.mode ||| 0o111 } else a
    Except.ok a

/-- file.go File.Read: backend read into the full-capacity buffer at the
offset; the response data is the buffer truncated to the reported count, and
the call's error status is exactly the backend's. -/
def File.read (ops : KBFSOps) (f : File) (buf : List Nat) (off : Int) :
    List Nat × Except Nat Unit :=
  let r := ops.read f.getPathLocked buf.length off
  (r.buffer.take r.count,
   match r.err with
   | none => Except.ok ()
   | some e => Except.error e)

/-- file.go File.Write: backend write of the request data at the offset; on
backend failure the error aborts the call with nothing reported written, on
success the full request length is reported. The File state is returned
unchanged: Write threads nothing into path propagation. -/
def File.write (ops : KBFSOps) (f : File) (data : List Nat) (off : Int) :
    File × Except Nat Nat :=
  match ops.write f.getPathLocked data off with
  | Except.error e => (f, Except.error e)
  | Except.ok _ => (f, Except.ok data.length)

/-- file.go File.sync: Backend.Sync on the reconstructed path; on error the
error is returned with the node untouched, on success the returned path is
applied through updatePathLocked (whose panic is `none`). -/
def File.sync (ops : KBFSOps) (f : File) : Option (File × Except Nat Unit) :=
  match ops.sync f.getPathLocked with
  | Except.error e => some (f, Except.error e)
  | Except.ok p => (f.updatePathLocked p).map (fun f2 => (f2, Except.ok ()))

/-- file.go File.Fsync: delegates to sync. -/
def File.fsync (ops : KBFSOps) (f : File) : Option (File × Except Nat Unit) :=
  f.sync ops

/-- file.go File.Flush: delegates to sync, with no distinct semantics. -/
def File.flush (ops : KBFSOps) (f : File) : Option (File × Except Nat Unit) :=
  f.sync ops

/-- Concrete file node used by the witnesses: one parent (the root). -/
def fileA : File :=
  File.mk 0 [PathNode.mk "r" 0] (PathNode.mk "a" 1)

/-- Concrete backend used by the witnesses: every call succeeds, stat yields
an Exec entry of size 13, reads report 2 bytes, mutating calls return the
path they were given. -/
def opsA : KBFSOps :=
  KBFSOps.mk (fun _ => Except.ok (DirEntry.mk EntryType.exec 13 7 9))
    (fun _ c _ => ReadResult.mk 2 (List.replicate c 5) none)
    (fun _ _ _ => Except.ok ()) (fun _ _ => Except.ok ())
    (fun p _ => Except.ok p) (fun p _ => Except.ok p)
    (fun p => Except.ok p)

/-- Concrete backend whose every call fails with error code 42. -/
def opsErr : KBFSOps :=
  KBFSOps.mk (fun _ => Except.error 42)
    (fun _ c _ => ReadResult.mk 0 (List.replicate c 0) (some 42))
    (fun _ _ _ => Except.error 42) (fun _ _ => Except.error 42)
    (fun _ _ => Except.error 42) (fun _ _ => Except.error 42)
    (fun _ => Except.error 42)

/-- C2: a successful Attr call returns mode 0644, with 0111 added to it
exactly when the stat descriptor carries the Exec type, and size and
timestamps copied verbatim from the stat result. -/
theorem attr_mode_and_copied_fields (ops : KBFSOps) (f : File) (de : DirEntry)
    (h : ops.stat f.getPathLocked = Except.ok de) :
    f.attr ops = Except.ok
      { mode := if de.entryType = EntryType.exec then 0o755 else 0o644,
        size := de.size, mtime := de.mtime, ctime := de.ctime } := by
  rw [File.attr, statPath, h]
  show Except.ok
      (if de.entryType = EntryType.exec
        then FuseAttr.mk (0o644 ||| 0o111) de.size de.mtime de.ctime
        else FuseAttr.mk 0o644 de.size de.mtime de.ctime) = _
  by_cases hx : de.entryType = EntryType.exec
  · rw [if_pos hx, if_pos hx]
    rfl
  · rw [if_neg hx, if_neg hx]

/-- Witness for C2 with a concrete backend whose stat yields an Exec entry. -/
theorem attr_mode_and_copied_fields_witness :
    opsA.stat fileA.getPathLocked = Except.ok (DirEntry.mk EntryType.exec 13 7 9) ∧
    fileA.attr opsA = Except.ok { mode := 0o755, size := 13, mtime := 7, ctime := 9 } := by
  refine ⟨rfl, ?_⟩
  have h := attr_mode_and_copied_fields opsA fileA (DirEntry.mk EntryType.exec 13 7 9) rfl
  rw [h]
  rfl

/-- C4: a Write call with request data of length n reports exactly n bytes
written when the backend write succeeds, and on backend failure returns the
backend's error with nothing reported written; no partial count is ever
reported. -/
theorem write_all_or_nothing (ops : KBFSOps) (f : File) (data : List Nat) (off : Int) :
    (ops.write f.getPathLocked data off = Except.ok () →
      f.write ops data off = (f, Except.ok data.length)) ∧
    (∀ e, ops.write f.getPathLocked data off = Except.error e →
      f.write ops data off = (f, Except.error e)) := by
  constructor
  · intro h
    rw [File.write, h]
  · intro e h
    rw [File.write, h]

/-- Witness for C4: a 3-byte write reports 3 on the all-ok backend and the
bare error code 42 on the all-failing backend. -/
theorem write_all_or_nothing_witness :
    fileA.write opsA [1, 2, 3] 0 = (fileA, Except.ok 3) ∧
    fileA.write opsErr [1, 2, 3] 0 = (fileA, Except.error 42) :=
  ⟨(write_all_or_nothing opsA fileA [1, 2, 3] 0).1 rfl,
   (write_all_or_nothing opsErr fileA [1, 2, 3] 0).2 42 rfl⟩

/-- C5: a Read call's response data is exactly the first `count` bytes of
the buffer, where `count` is the byte count the backend supplies, and
whenever the backend reports no error the call succeeds no matter how short
the count is (zero included). -/
theorem read_short_ok (ops : KBFSOps) (f : File) (buf : List Nat) (off : Int) :
    (f.read ops buf off).1 =
      (ops.read f.getPathLocked buf.length off).buffer.take
        (ops.read f.getPathLocked buf.length off).count ∧
    ((ops.read f.getPathLocked buf.length off).err = none →
      (f.read ops buf off).2 = Except.ok ()) := by
  constructor
  · rfl
  · intro h
    show (match (ops.read f.getPathLocked buf.length off).err with
      | none => Except.ok ()
      | some e => Except.error e) = Except.ok ()
    rw [h]

/-- Witness for C5: with a backend reporting count 2 into a 3-byte buffer of
fives the response is the two-byte prefix and the call succeeds. -/
theorem read_short_ok_witness :
    (fileA.read opsA [0, 0, 0] 0).1 = [5, 5] ∧
    (fileA.read opsA [0, 0, 0] 0).2 = Except.ok () := by
  constructor
  · have h := (read_short_ok opsA fileA [0, 0, 0] 0).1
    rw [h]
    rfl
  · exact (read_short_ok opsA fileA [0, 0, 0] 0).2 rfl

/-- C6: Fsync and Flush are the identical commit operation: both equal sync,
which calls Backend.Sync on the reconstructed path and, on success, applies
path propagation to the returned path; on backend error the error is
returned and the node is left untouched. -/
theorem fsync_flush_sync_semantics (ops : KBFSOps) (f : File) :
    f.fsync ops = f.sync ops ∧
    f.flush ops = f.sync ops ∧
    (∀ e, ops.sync f.getPathLocked = Except.error e →
      f.sync ops = some (f, Except.error e)) ∧
    (∀ p, ops.sync f.getPathLocked = Except.ok p →
      f.sync ops = (f.updatePathLocked p).map (fun f2 => (f2, Except.ok ()))) := by
  refine ⟨rfl, rfl, ?_, ?_⟩ <;> intro x h <;> rw [File.sync, h]

/-- Witness for C6 on the all-ok and the all-failing backends. -/
theorem fsync_flush_sync_semantics_witness :
    fileA.fsync opsA = fileA.sync opsA ∧
    fileA.sync opsErr = some (fileA, Except.error 42) ∧
    fileA.sync opsA =
      (fileA.updatePathLocked fileA.getPathLocked).map (fun f2 => (f2, Except.ok ())) :=
  ⟨(fsync_flush_sync_semantics opsA fileA).1,
   (fsync_flush_sync_semantics opsErr fileA).2.2.1 42 rfl,
   (fsync_flush_sync_semantics opsA fileA).2.2.2 fileA.getPathLocked rfl⟩

/-- Go's x AND NOT y (the &^ operator on the uint32 flag word): clear in x
every bit that is set in y. The cleared bits are exactly x &&& y, so the
removal is the exclusive or with that overlap. -/
def andNot (x y : Nat) : Nat := x ^^^ (x &&& y)

/-- The fuse.SetattrRequest fields file.go reads. `valid` is the
fuse.SetattrValid flag word exactly as in Go: Mode is bit value 1, Uid 2,
Gid 4, Size 8, Atime 16, Mtime 32, Handle 64, AtimeNow 128, MtimeNow 256,
LockOwner 512, Crtime 1024, Chgtime 2048, Bkuptime 4096, Flags 8192. -/
structure SetattrRequest where
  valid : Nat
  size : Nat
  mode : Nat
  atime : Int
  mtime : Int

/-- An error returned by Setattr: either a backend error propagated
unchanged, or fuse.ENOSYS for an unhandled flag. -/
inductive FsError where
  | backend (code : Nat)
  | enosys

/-- The flag bits file.go's Setattr serves or explicitly discards:
Mode (1), Size (8), Atime (16), Mtime (32), Handle (64), LockOwner (512). -/
def recognizedFlags : Nat := 1 ||| 8 ||| 16 ||| 32 ||| 64 ||| 512

/-- Tail of file.go Setattr after the three field branches: clear the atime
flag (valid &^= SetattrAtime; accepted and discarded), clear the lock-owner
and handle flags (valid &^= SetattrLockOwner | SetattrHandle), and fail with
ENOSYS when any flag is still set (valid != 0). -/
def setattrTail (f : File) (v : Nat) : Option (File × Except FsError Unit) :=
  if andNot (andNot v 16) (512 ||| 64) ≠ 0 then some (f, Except.error FsError.enosys)
  else some (f, Except.ok ())

/-- The Mtime branch of file.go Setattr: when valid.Mtime() (bit 32) is set,
Backend.SetMtime on the reconstructed path, propagate the returned path,
clear the flag. -/
def setattrMtimeStage (ops : KBFSOps) (f : File) (v : Nat)
    (req : SetattrRequest) : Option (File × Except FsError Unit) :=
  if v &&& 32 ≠ 0 then
    match ops.setMtime f.getPathLocked req.mtime with
    | Except.error e => some (f, Except.error (FsError.backend e))
    | Except.ok p =>
      match f.updatePathLocked p with
      | none => none
      | some f2 => setattrTail f2 (andNot v 32)
  else setattrTail f v

/-- The Mode branch of file.go Setattr: when valid.Mode() (bit 1) is set,
only the owner-execute bit 0100 of the requested mode is read;
Backend.SetEx with that bit, propagate the returned path, clear the flag. -/
def setattrModeStage (ops : KBFSOps) (f : File) (v : Nat)
    (req : SetattrRequest) : Option (File × Except FsError Unit) :=
  if v &&& 1 ≠ 0 then
    match ops.setEx f.getPathLocked (req.mode &&& 0o100 != 0) with
    | Except.error e => some (f, Except.error (FsError.backend e))
    | Except.ok p =>
      match f.updatePathLocked p with
      | none => none
      | some f2 => setattrMtimeStage ops f2 (andNot v 1) req
  else setattrMtimeStage ops f v req

/-- file.go File.Setattr: the Size branch when valid.Size() (bit 8) is set
(Backend.Truncate, no path propagation, clear the flag), then the Mode
branch, then the Mtime branch, then the tail. -/
def File.setattr (ops : KBFSOps) (f : File) (req : SetattrRequest) :
    Option (File × Except FsError Unit) :=
  if req.valid &&& 8 ≠ 0 then
    match ops.truncate f.getPathLocked req.size with
    | Except.error e => some (f, Except.error (FsError.backend e))
    | Except.ok _ => setattrModeStage ops f (andNot req.valid 8) req
  else setattrModeStage ops f req.valid req

/-- Bit reading of the AND NOT operation. -/
theorem testBit_andNot (x y i : Nat) :
    (andNot x y).testBit i = (x.testBit i && !(y.testBit i)) := by
  rw [andNot, Nat.testBit_xor, Nat.testBit_land]
  cases hx : x.testBit i <;> cases hy : y.testBit i <;> rfl

/-- A non-zero flag word has a set bit. -/
theorem exists_testBit_of_ne_zero (n : Nat) (h : n ≠ 0) :
    ∃ i, n.testBit i = true := by
  by_contra hc
  push_neg at hc
  refine h (Nat.zero_of_testBit_eq_false (fun i => ?_))
  cases hn : n.testBit i with
  | false => rfl
  | true => exact absurd hn (hc i)

/-- A bit of a submask is clear wherever the enclosing mask is clear. -/
theorem testBit_false_of_submask (x y i : Nat) (hxy : x &&& y = x)
    (h : y.testBit i = false) : x.testBit i = false := by
  have h2 := Nat.testBit_land x y i
  rw [hxy, h, Bool.and_false] at h2
  exact h2

/-- A flag word disjoint from a mask has no bit of the mask set. -/
theorem testBit_false_of_land_eq_zero (v m i : Nat) (h : v &&& m = 0)
    (hm : m.testBit i = true) : v.testBit i = false := by
  have h2 := Nat.testBit_land v m i
  rw [h, Nat.zero_testBit, hm, Bool.and_true] at h2
  exact h2.symm

/-- An unrecognized flag yields a bit set in the request but absent from
the recognized mask. -/
theorem unrecognized_bit (v : Nat) (h : andNot v recognizedFlags ≠ 0) :
    ∃ i, v.testBit i = true ∧ Nat.testBit recognizedFlags i = false := by
  obtain ⟨i, hi⟩ := exists_testBit_of_ne_zero _ h
  rw [testBit_andNot, Bool.and_eq_true, Bool.not_eq_true'] at hi
  exact ⟨i, hi⟩

/-- Clearing a recognized flag cannot erase an unrecognized one. -/
theorem unrecognized_andNot (v m : Nat) (hm : m &&& recognizedFlags = m)
    (h : andNot v recognizedFlags ≠ 0) :
    andNot (andNot v m) recognizedFlags ≠ 0 := by
  obtain ⟨i, hv, hr⟩ := unrecognized_bit v h
  intro hc
  have h2 : (andNot (andNot v m) recognizedFlags).testBit i = true := by
    rw [testBit_andNot, testBit_andNot, hv,
      testBit_false_of_submask m recognizedFlags i hm hr, hr]
    rfl
  rw [hc, Nat.zero_testBit] at h2
  exact Bool.noConfusion h2

/-- Clearing bits cannot set new ones: a mask test that was zero stays
zero after AND NOT. -/
theorem land_andNot_eq_zero (v y m : Nat) (h : v &&& m = 0) :
    andNot v y &&& m = 0 := by
  refine Nat.zero_of_testBit_eq_false (fun i => ?_)
  rw [Nat.testBit_land, testBit_andNot]
  cases hv : v.testBit i with
  | false => rfl
  | true =>
    have h2 := Nat.testBit_land v m i
    rw [h, Nat.zero_testBit, hv, Bool.true_and] at h2
    rw [← h2, Bool.and_false]

/-- The tail rejects with ENOSYS whenever the request carries a flag this
layer does not recognize. -/
theorem setattrTail_unhandled (f : File) (v : Nat)
    (h : andNot v recognizedFlags ≠ 0) :
    setattrTail f v = some (f, Except.error FsError.enosys) := by
  obtain ⟨i, hv, hr⟩ := unrecognized_bit v h
  have hne : andNot (andNot v 16) (512 ||| 64) ≠ 0 := by
    intro hc
    have h2 : (andNot (andNot v 16) (512 ||| 64)).testBit i = true := by
      rw [testBit_andNot, testBit_andNot, hv,
        testBit_false_of_submask 16 recognizedFlags i (by decide) hr,
        testBit_false_of_submask (512 ||| 64) recognizedFlags i (by decide) hr]
      rfl
    rw [hc, Nat.zero_testBit] at h2
    exact Bool.noConfusion h2
  rw [setattrTail, if_pos hne]

/-- The tail succeeds with the node untouched when the three served flags
are off and no unrecognized flag is present; the atime, lock-owner and
handle flags are discarded regardless. -/
theorem setattrTail_ok (f : File) (v : Nat) (hmo : v &&& 1 = 0)
    (hs : v &&& 8 = 0) (hmt : v &&& 32 = 0)
    (hu : andNot v recognizedFlags = 0) :
    setattrTail f v = some (f, Except.ok ()) := by
  have hz : andNot (andNot v 16) (512 ||| 64) = 0 := by
    refine Nat.zero_of_testBit_eq_false (fun i => ?_)
    rw [testBit_andNot, testBit_andNot]
    cases hv : v.testBit i with
    | false => rfl
    | true =>
      have h633 : Nat.testBit recognizedFlags i = true := by
        have h2 : (andNot v recognizedFlags).testBit i = false := by
          rw [hu, Nat.zero_testBit]
        rw [testBit_andNot, hv, Bool.true_and, Bool.not_eq_false'] at h2
        exact h2
      rw [recognizedFlags, Nat.testBit_lor, Nat.testBit_lor, Nat.testBit_lor,
        Nat.testBit_lor, Nat.testBit_lor] at h633
      simp only [Bool.or_eq_true] at h633
      rcases h633 with ((((h1 | h8) | h16) | h32) | h64) | h512
      · rw [testBit_false_of_land_eq_zero v 1 i hmo h1] at hv
        exact Bool.noConfusion hv
      · rw [testBit_false_of_land_eq_zero v 8 i hs h8] at hv
        exact Bool.noConfusion hv
      · rw [h16]
        rfl
      · rw [testBit_false_of_land_eq_zero v 32 i hmt h32] at hv
        exact Bool.noConfusion hv
      · have h576 : Nat.testBit (512 ||| 64) i = true := by
          rw [Nat.testBit_lor, h64, Bool.or_true]
        rw [h576, Bool.not_true, Bool.and_false]
      · have h576 : Nat.testBit (512 ||| 64) i = true := by
          rw [Nat.testBit_lor, h512, Bool.true_or]
        rw [h576, Bool.not_true, Bool.and_false]
  rw [setattrTail, if_neg (fun hc => hc hz)]

/-- The Mtime stage never reports success while an unrecognized flag is
set. -/
theorem setattrMtimeStage_unhandled (ops : KBFSOps) (f : File) (v : Nat)
    (req : SetattrRequest) (h : andNot v recognizedFlags ≠ 0) (st : File) :
    setattrMtimeStage ops f v req ≠ some (st, Except.ok ()) := by
  rw [setattrMtimeStage]
  by_cases hm : v &&& 32 ≠ 0
  · rw [if_pos hm]
    cases hr : ops.setMtime f.getPathLocked req.mtime with
    | error e => simp
    | ok p =>
      cases hu : f.updatePathLocked p with
      | none => simp [hu]
      | some f2 =>
        simp only [hu]
        rw [setattrTail_unhandled f2 _ (unrecognized_andNot v 32 (by decide) h)]
        simp
  · rw [if_neg hm]
    rw [setattrTail_unhandled f v h]
    simp

/-- The Mode stage never reports success while an unrecognized flag is
set. -/
theorem setattrModeStage_unhandled (ops : KBFSOps) (f : File) (v : Nat)
    (req : SetattrRequest) (h : andNot v recognizedFlags ≠ 0) (st : File) :
    setattrModeStage ops f v req ≠ some (st, Except.ok ()) := by
  rw [setattrModeStage]
  by_cases hmo : v &&& 1 ≠ 0
  · rw [if_pos hmo]
    cases hr : ops.setEx f.getPathLocked (req.mode &&& 0o100 != 0) with
    | error e => simp
    | ok p =>
      cases hu : f.updatePathLocked p with
      | none => simp [hu]
      | some f2 =>
        simp only [hu]
        exact setattrMtimeStage_unhandled ops f2 _ req
          (unrecognized_andNot v 1 (by decide) h) st
  · rw [if_neg hmo]
    exact setattrMtimeStage_unhandled ops f v req h st

/-- With none of the size, mode and mtime flags set, Setattr reduces to the
tail on the request's flag word, touching no backend operation. -/
theorem setattr_no_backend (ops : KBFSOps) (f : File) (req : SetattrRequest)
    (hs : req.valid &&& 8 = 0) (hmo : req.valid &&& 1 = 0)
    (hmt : req.valid &&& 32 = 0) :
    f.setattr ops req = setattrTail f req.valid := by
  rw [File.setattr, if_neg (fun hc => hc hs), setattrModeStage,
    if_neg (fun hc => hc hmo), setattrMtimeStage, if_neg (fun hc => hc hmt)]

/-- C3: a Setattr request whose only acted-on field is access time — no
size, mode or mtime flag set — is accepted and discarded without any
backend call: the result does not depend on the backend at all, it succeeds
with the node untouched when no unrecognized flag rides along, and an
unrecognized flag alone yields ENOSYS; moreover in every case an
unrecognized requested flag prevents the call from silently succeeding.
Flag bit values: Size 8, Mode 1, Mtime 32; the unrecognized flags are the
bits outside recognizedFlags, removed with AND NOT. -/
theorem setattr_atime_discarded_unknown_rejected (ops ops2 : KBFSOps) (f : File)
    (req : SetattrRequest) :
    ((req.valid &&& 8 = 0 ∧ req.valid &&& 1 = 0 ∧ req.valid &&& 32 = 0) →
      f.setattr ops req = f.setattr ops2 req ∧
      (andNot req.valid recognizedFlags = 0 →
        f.setattr ops req = some (f, Except.ok ())) ∧
      (andNot req.valid recognizedFlags ≠ 0 →
        f.setattr ops req = some (f, Except.error FsError.enosys))) ∧
    (andNot req.valid recognizedFlags ≠ 0 →
      ∀ st, f.setattr ops req ≠ some (st, Except.ok ())) := by
  constructor
  · rintro ⟨hs, hmo, hmt⟩
    refine ⟨?_, ?_, ?_⟩
    · rw [setattr_no_backend ops f req hs hmo hmt,
        setattr_no_backend ops2 f req hs hmo hmt]
    · intro hu
      rw [setattr_no_backend ops f req hs hmo hmt]
      exact setattrTail_ok f req.valid hmo hs hmt hu
    · intro hu
      rw [setattr_no_backend ops f req hs hmo hmt]
      exact setattrTail_unhandled f req.valid hu
  · intro hu st
    rw [File.setattr]
    by_cases h1 : req.valid &&& 8 ≠ 0
    · rw [if_pos h1]
      cases ops.truncate f.getPathLocked req.size with
      | error e => simp
      | ok u =>
        exact setattrModeStage_unhandled ops f _ req
          (unrecognized_andNot req.valid 8 (by decide) hu) st
    · rw [if_neg h1]
      exact setattrModeStage_unhandled ops f req.valid req hu st

/-- Concrete request asking only for an access-time update (flag bit 16). -/
def reqAtime : SetattrRequest :=
  { valid := 16, size := 0, mode := 0, atime := 3, mtime := 4 }

/-- Concrete request carrying only the unrecognized uid flag (bit 2). -/
def reqUid : SetattrRequest :=
  { valid := 2, size := 0, mode := 0, atime := 0, mtime := 0 }

/-- Witness for C3: the atime-only request succeeds identically on the
all-ok and the all-failing backends, and the uid-only request draws
ENOSYS. -/
theorem setattr_atime_discarded_unknown_rejected_witness :
    fileA.setattr opsA reqAtime = fileA.setattr opsErr reqAtime ∧
    fileA.setattr opsA reqAtime = some (fileA, Except.ok ()) ∧
    fileA.setattr opsA reqUid = some (fileA, Except.error FsError.enosys) ∧
    fileA.setattr opsA reqUid ≠ some (fileA, Except.ok ()) := by
  refine ⟨?_, ?_, ?_, ?_⟩
  · exact ((setattr_atime_discarded_unknown_rejected opsA opsErr fileA reqAtime).1
      ⟨rfl, rfl, rfl⟩).1
  · exact ((setattr_atime_discarded_unknown_rejected opsA opsErr fileA reqAtime).1
      ⟨rfl, rfl, rfl⟩).2.1 rfl
  · exact ((setattr_atime_discarded_unknown_rejected opsA opsErr fileA reqUid).1
      ⟨rfl, rfl, rfl⟩).2.2 (by decide)
  · exact (setattr_atime_discarded_unknown_rejected opsA opsErr fileA reqUid).2
      (by decide) fileA

/-- The Mtime stage reads nothing of the request but its mtime field, so a
changed mode field is invisible to it. -/
theorem setattrMtimeStage_mode_irrel (ops : KBFSOps) (f : File) (v : Nat)
    (req : SetattrRequest) (m : Nat) :
    setattrMtimeStage ops f v { req with mode := m } =
      setattrMtimeStage ops f v req := rfl

/-- The Mode stage reads the requested mode only through its owner-execute
bit. -/
theorem setattrModeStage_exec_bit (ops : KBFSOps) (f : File) (v : Nat)
    (req : SetattrRequest) (m : Nat)
    (hm : (m &&& 0o100 != 0) = (req.mode &&& 0o100 != 0)) :
    setattrModeStage ops f v { req with mode := m } =
      setattrModeStage ops f v req := by
  rw [setattrModeStage, setattrModeStage]
  simp only [setattrMtimeStage_mode_irrel, hm]

/-- A successful Attr always reports mode 0644 or 0755 and nothing else. -/
theorem attr_ok_mode (ops : KBFSOps) (f : File) (a : FuseAttr)
    (ha : f.attr ops = Except.ok a) : a.mode = 0o644 ∨ a.mode = 0o755 := by
  cases hstat : ops.stat f.getPathLocked with
  | error e =>
    rw [File.attr, statPath, hstat] at ha
    exact Except.noConfusion ha
  | ok de =>
    rw [File.attr, statPath, hstat] at ha
    have ha2 : Except.ok
        (if de.entryType = EntryType.exec
          then FuseAttr.mk (0o644 ||| 0o111) de.size de.mtime de.ctime
          else FuseAttr.mk 0o644 de.size de.mtime de.ctime) = Except.ok a := ha
    have hval := Except.ok.inj ha2
    by_cases hx : de.entryType = EntryType.exec
    · right
      rw [← hval, if_pos hx]
      rfl
    · left
      rw [← hval, if_neg hx]

/-- C7: in a Setattr mode change only the owner-execute bit 0100 of the
requested mode is meaningful — replacing the requested mode by any mode
with the same owner-execute bit leaves the whole call unchanged; when only
the mode flag (bit 1) is set the backend SetEx is invoked with exactly that
bit and its returned path is applied through path propagation; and the
visible permission bits only ever alternate between 0644 and 0755, the
three execute bits toggling together. -/
theorem setattr_mode_exec_bit_only (ops : KBFSOps) (f : File) (req : SetattrRequest)
    (m : Nat) (hm : (m &&& 0o100 != 0) = (req.mode &&& 0o100 != 0)) :
    f.setattr ops { req with mode := m } = f.setattr ops req ∧
    (req.valid = 1 →
      ∀ p, ops.setEx f.getPathLocked (req.mode &&& 0o100 != 0) = Except.ok p →
        f.setattr ops req =
          (f.updatePathLocked p).map (fun f2 => (f2, Except.ok ()))) ∧
    (∀ a, f.attr ops = Except.ok a → a.mode = 0o644 ∨ a.mode = 0o755) := by
  refine ⟨?_, ?_, ?_⟩
  · have key : ∀ (g : File) (v : Nat),
        setattrModeStage ops g v { req with mode := m } =
          setattrModeStage ops g v req :=
      fun g v => setattrModeStage_exec_bit ops g v req m hm
    rw [File.setattr, File.setattr]
    simp only [key]
  · intro hv p hp
    rw [File.setattr, hv, if_neg (by decide), setattrModeStage,
      if_pos (by decide), hp]
    show (match f.updatePathLocked p with
      | none => none
      | some f2 => setattrMtimeStage ops f2 (andNot 1 1) req) =
      (f.updatePathLocked p).map (fun f2 => (f2, Except.ok ()))
    cases f.updatePathLocked p with
    | none => rfl
    | some f2 =>
      show setattrMtimeStage ops f2 (andNot 1 1) req = some (f2, Except.ok ())
      rw [setattrMtimeStage, if_neg (by decide), setattrTail, if_neg (by decide)]
  · exact attr_ok_mode ops f

/-- Concrete request asking only for a mode change to 0755 (flag bit 1). -/
def reqMode : SetattrRequest :=
  { valid := 1, size := 0, mode := 0o755, atime := 0, mtime := 0 }

/-- Witness for C7: requesting mode 0100 behaves exactly like requesting
0755, the propagated path is applied, and the visible mode is 0755. -/
theorem setattr_mode_exec_bit_only_witness :
    fileA.setattr opsA { reqMode with mode := 0o100 } = fileA.setattr opsA reqMode ∧
    fileA.setattr opsA reqMode =
      (fileA.updatePathLocked fileA.getPathLocked).map (fun f2 => (f2, Except.ok ())) ∧
    (({ mode := 0o755, size := 13, mtime := 7, ctime := 9 } : FuseAttr).mode = 0o644 ∨
     ({ mode := 0o755, size := 13, mtime := 7, ctime := 9 } : FuseAttr).mode = 0o755) :=
  ⟨(setattr_mode_exec_bit_only opsA fileA reqMode 0o100 (by decide)).1,
   (setattr_mode_exec_bit_only opsA fileA reqMode 0o100 (by decide)).2.1 rfl
     fileA.getPathLocked rfl,
   (setattr_mode_exec_bit_only opsA fileA reqMode 0o100 (by decide)).2.2
     { mode := 0o755, size := 13, mtime := 7, ctime := 9 } rfl⟩

/-- C10: Write and a Setattr that requests no mode and no mtime change (in
particular the size/truncate branch alone) leave the File node's own
PathNode and every ancestor's PathNode untouched, whether the backend call
succeeds or fails — no path propagation occurs for them. Flag bit values:
Mode 1, Mtime 32. -/
theorem write_truncate_no_propagation (ops : KBFSOps) (f : File) (data : List Nat)
    (off : Int) (req : SetattrRequest)
    (hmo : req.valid &&& 1 = 0) (hmt : req.valid &&& 32 = 0) :
    (f.write ops data off).1 = f ∧
    (∃ r, f.setattr ops req = some (f, r)) := by
  constructor
  · rw [File.write]
    cases ops.write f.getPathLocked data off <;> rfl
  · have tail : ∀ v : Nat, ∃ r, setattrTail f v = some (f, r) := by
      intro v
      rw [setattrTail]
      by_cases h : andNot (andNot v 16) (512 ||| 64) ≠ 0
      · exact ⟨Except.error FsError.enosys, by rw [if_pos h]⟩
      · exact ⟨Except.ok (), by rw [if_neg h]⟩
    have stages : ∀ v : Nat, v &&& 1 = 0 → v &&& 32 = 0 →
        ∃ r, setattrModeStage ops f v req = some (f, r) := by
      intro v hv1 hv2
      rw [setattrModeStage, if_neg (fun hc => hc hv1),
        setattrMtimeStage, if_neg (fun hc => hc hv2)]
      exact tail v
    rw [File.setattr]
    by_cases h1 : req.valid &&& 8 ≠ 0
    · rw [if_pos h1]
      cases ops.truncate f.getPathLocked req.size with
      | error e => exact ⟨Except.error (FsError.backend e), rfl⟩
      | ok u =>
        exact stages (andNot req.valid 8)
          (land_andNot_eq_zero req.valid 8 1 hmo)
          (land_andNot_eq_zero req.valid 8 32 hmt)
    · rw [if_neg h1]
      exact stages req.valid hmo hmt

/-- Concrete request asking only for a size change (truncate, flag bit 8). -/
def reqSize : SetattrRequest :=
  { valid := 8, size := 5, mode := 0, atime := 0, mtime := 0 }

/-- Witness for C10: a concrete write and a concrete truncate-only Setattr
both leave the node exactly as it was. -/
theorem write_truncate_no_propagation_witness :
    (fileA.write opsA [1, 2] 0).1 = fileA ∧
    (∃ r, fileA.setattr opsA reqSize = some (fileA, r)) :=
  write_truncate_no_propagation opsA fileA [1, 2] 0 reqSize rfl rfl
/-- The cross-device error code carried by a rejected cross-root rename. -/
def EXDEV : Nat := 18

/-- The no-such-entry error code for a missing rename source. -/
def ENOENT : Nat := 2

/-- A link-style error as the OS reports it for a failed rename: the
operation name, the two full paths, and the error code. -/
structure LinkError where
  op : String
  old : String
  new : String
  errno : Nat

/-- Modelled from the spec: the per-root observable contents around a
rename, keyed by root identifier and entry name. -/
def FsState : Type := List ((Nat × String) × List Nat)

/-- Lookup of an entry's content under one root. -/
def lookupFs (st : FsState) (root : Nat) (name : String) : Option (List Nat) :=
  (st.find? (fun e => e.1 == (root, name))).map (fun e => e.2)

/-- Removal of an entry under one root. -/
def removeFs (st : FsState) (root : Nat) (name : String) : FsState :=
  st.filter (fun e => !(e.1 == (root, name)))

/-- Insertion or replacement of an entry's content under one root. -/
def setFs (st : FsState) (root : Nat) (name : String) (content : List Nat) : FsState :=
  ((root, name), content) :: removeFs st root name

/-- Modelled from the spec: the rename operation as observed through the OS
wrapper (Dir.Rename lives in dir.go, which is not under src/). Per section 7
a cross-root rename is rejected locally, without ever calling the Backend,
as a link-style error carrying the operation name, both full paths, and the
cross-device error code; per section 8 a same-root rename makes the
destination resolve to the source's prior content and the source no longer
resolve, through the Backend. The middle component counts Backend calls. -/
def renameFs (st : FsState) (srcRoot : Nat) (srcName srcFull : String)
    (dstRoot : Nat) (dstName dstFull : String) :
    FsState × Nat × Option LinkError :=
  if srcRoot ≠ dstRoot then
    (st, 0, some { op := "rename", old := srcFull, new := dstFull, errno := EXDEV })
  else
    match lookupFs st srcRoot srcName with
    | none =>
      (st, 1, some { op := "rename", old := srcFull, new := dstFull, errno := ENOENT })
    | some content =>
      (setFs (removeFs st srcRoot srcName) dstRoot dstName content, 1, none)

/-- C8: a rename whose source and destination lie under different roots
always fails, rejected locally with zero Backend calls, as a link-style
error carrying the operation name, both paths and the cross-device code,
and the state — source and destination included — is unchanged. -/
theorem rename_cross_root_rejected (st : FsState) (srcRoot : Nat)
    (srcName srcFull : String) (dstRoot : Nat) (dstName dstFull : String)
    (h : srcRoot ≠ dstRoot) :
    renameFs st srcRoot srcName srcFull dstRoot dstName dstFull =
      (st, 0, some { op := "rename", old := srcFull, new := dstFull, errno := EXDEV }) := by
  rw [renameFs, if_pos h]

/-- Witness for C8, shaped after TestRenameCrossFolder: a file under root 0
renamed towards root 1 draws the EXDEV link error and nothing changes. -/
theorem rename_cross_root_rejected_witness :
    renameFs [((0, "old"), [1, 2, 3])] 0 "old" "/mnt/jdoe/old"
        1 "new" "/mnt/wsmith,jdoe/new" =
      ([((0, "old"), [1, 2, 3])], 0,
        some { op := "rename", old := "/mnt/jdoe/old", new := "/mnt/wsmith,jdoe/new",
               errno := EXDEV }) :=
  rename_cross_root_rejected [((0, "old"), [1, 2, 3])] 0 "old" "/mnt/jdoe/old"
    1 "new" "/mnt/wsmith,jdoe/new" (by decide)

end KbfsFuse
